import Mathlib

set_option autoImplicit false
set_option maxRecDepth 100000

/-!
# InstantSeek2Api: the request-translation handler

A shallow embedding of `api/main.go`.  The handler is one Go function,
`Handler(w, r)`, which authenticates an inbound request, routes it, decodes an
OpenAI-shaped body, forwards the last message to the upstream chat service and
writes the answer back either as one JSON object or as a server-sent-event
stream.

The embedding is a pure function `Handler : World → Request → Outcome`:

* `World` holds everything the Go code reads from outside the request: the
  process environment, the clock, the HTTP client and the two JSON decoders of
  `encoding/json` (which are library code, taken as functions);
* `Outcome` holds what the handler did: the state of the response writer, the
  list of requests handed to `client.Do`, and whether the goroutine panicked.

JSON *encoding* is modelled concretely (values of type `Json`, rendered the way
`encoding/json` renders them), so response bodies are real strings.
-/

namespace InstantSeek

/-! ## JSON values and their encoding -/

/-- JSON values, as produced by `json.Marshal` for the structs of this program.
Objects keep their fields in emission order. -/
inductive Json where
  | null : Json
  | bool (b : Bool) : Json
  | num (n : Int) : Json
  | str (s : String) : Json
  | arr (xs : List Json) : Json
  | obj (kvs : List (String × Json)) : Json

/-- Lower-case hexadecimal digit, `hex[n]` in `encoding/json`. -/
def hexDigit (n : Nat) : Char :=
  "0123456789abcdef".data.getD n '0'

/-- The escape `encoding/json` emits for one character of a string, with HTML
escaping on (the default of `json.Marshal` and of `json.Encoder`). -/
def escapeChar (c : Char) : List Char :=
  let n := c.toNat
  if n = 34 then [Char.ofNat 92, Char.ofNat 34]
  else if n = 92 then [Char.ofNat 92, Char.ofNat 92]
  else if n = 8 then [Char.ofNat 92, 'b']
  else if n = 12 then [Char.ofNat 92, 'f']
  else if n = 10 then [Char.ofNat 92, 'n']
  else if n = 13 then [Char.ofNat 92, 'r']
  else if n = 9 then [Char.ofNat 92, 't']
  else if n < 32 ∨ n = 60 ∨ n = 62 ∨ n = 38 then
    [Char.ofNat 92, 'u', '0', '0', hexDigit (n / 16), hexDigit (n % 16)]
  else if n = 8232 ∨ n = 8233 then
    [Char.ofNat 92, 'u', '2', '0', '2', hexDigit (n % 16)]
  else [c]

/-- A JSON string literal: the quoted, escaped text. -/
def quoteString (s : String) : String :=
  "\"" ++ String.mk (s.data.flatMap escapeChar) ++ "\""

/-- Decimal text of an integer (`strconv.AppendInt(_, n, 10)`). -/
def formatInt (n : Int) : String :=
  if n < 0 then "-" ++ Nat.repr n.natAbs else Nat.repr n.toNat

mutual
/-- Compact JSON text of a value, without insignificant white space. -/
def Json.render : Json → String
  | .null => "null"
  | .bool true => "true"
  | .bool false => "false"
  | .num n => formatInt n
  | .str s => quoteString s
  | .arr xs => "[" ++ Json.renderElems xs ++ "]"
  | .obj kvs => "\x7b" ++ Json.renderFields kvs ++ "\x7d"
/-- Comma-separated elements of an array. -/
def Json.renderElems : List Json → String
  | [] => ""
  | [x] => Json.render x
  | x :: y :: rest => Json.render x ++ "," ++ Json.renderElems (y :: rest)
/-- Comma-separated `"key":value` members of an object. -/
def Json.renderFields : List (String × Json) → String
  | [] => ""
  | [(k, v)] => quoteString k ++ ":" ++ Json.render v
  | (k, v) :: kv :: rest =>
      quoteString k ++ ":" ++ Json.render v ++ "," ++ Json.renderFields (kv :: rest)
end

/-- The line `json.Encoder.Encode` writes: the encoding followed by a newline. -/
def encodeLine (j : Json) : String :=
  j.render ++ "\n"

/-- Strict lexicographic order of two texts by character code, which is the
byte order of their UTF-8 encodings (the order Go gives strings). -/
def lexLt : List Char → List Char → Bool
  | _, [] => false
  | [], _ :: _ => true
  | a :: as, b :: bs => a.toNat < b.toNat || (a.toNat == b.toNat && lexLt as bs)

/-- Insertion of a map entry at its place in key order. -/
def insertByKey (kv : String × String) : List (String × String) → List (String × String)
  | [] => [kv]
  | x :: rest => if lexLt kv.1.data x.1.data then kv :: x :: rest else x :: insertByKey kv rest

/-- Encoding of a Go `map[string]string`: `encoding/json` emits the entries
sorted by key. -/
def marshalStringMap (m : List (String × String)) : Json :=
  .obj ((m.foldr insertByKey []).map fun kv => (kv.1, Json.str kv.2))

/-! ## HTTP headers -/

/-- Bytes allowed in a header field name (`validHeaderFieldByte`): the token
characters of RFC 7230. -/
def validHeaderFieldByte (c : Char) : Bool :=
  c.isAlphanum || [33, 35, 36, 37, 38, 39, 42, 43, 45, 46, 94, 95, 96, 124, 126].contains c.toNat

/-- The inner loop of `canonicalMIMEHeaderKey`: upper case at the start and
after each dash, lower case elsewhere. -/
def canonicalChars : Bool → List Char → List Char
  | _, [] => []
  | upper, c :: cs =>
      let d := if upper then c.toUpper else c.toLower
      d :: canonicalChars (d = '-') cs

/-- Canonical form of a header key (`textproto.CanonicalMIMEHeaderKey`): a key
with a byte that is not a token character is left unchanged. -/
def canonicalMIMEHeaderKey (s : String) : String :=
  if s.data.all validHeaderFieldByte then String.mk (canonicalChars true s.data) else s

/-- The header map `http.Header`, `map[string][]string`, as an association
list. -/
abbrev Header := List (String × List String)

/-- The first value of a key, or `""` (`Header.Get`). -/
def Header.Get (h : Header) (key : String) : String :=
  match h.lookup (canonicalMIMEHeaderKey key) with
  | some (v :: _) => v
  | _ => ""

/-- Removal of a key (`Header.Del`). -/
def Header.Del (h : Header) (key : String) : Header :=
  h.filter fun kv => kv.1 != canonicalMIMEHeaderKey key

/-- Replacement of the values of a key by one value (`Header.Set`). -/
def Header.Set (h : Header) (key value : String) : Header :=
  let k := canonicalMIMEHeaderKey key
  if h.any (fun kv => kv.1 == k) then
    h.map fun kv => if kv.1 == k then (k, [value]) else kv
  else h ++ [(k, [value])]

/-! ## The response writer -/

/-- State of an `http.ResponseWriter`: the header map, the status code once the
header has been written, and the body bytes written so far. -/
structure ResponseWriter where
  /-- Header map returned by `w.Header()`. -/
  header : Header := []
  /-- Status code, `none` while the header has not been written. -/
  code : Option Nat := none
  /-- Body written so far. -/
  body : String := ""
  deriving DecidableEq, Repr

/-- Writing of the status line, `w.WriteHeader(code)`: only the first call
counts. -/
def ResponseWriter.WriteHeader (w : ResponseWriter) (code : Nat) : ResponseWriter :=
  match w.code with
  | some _ => w
  | none => { w with code := some code }

/-- Writing of body bytes, `w.Write`: the first write sends status 200 when no
status was written before. -/
def ResponseWriter.Write (w : ResponseWriter) (s : String) : ResponseWriter :=
  let w1 := w.WriteHeader 200
  { w1 with body := w1.body ++ s }

/-- Setting of a response header, `w.Header().Set(key, value)`. -/
def ResponseWriter.SetHeader (w : ResponseWriter) (key value : String) : ResponseWriter :=
  { w with header := w.header.Set key value }

/-- Reply with a plain-text error, `http.Error(w, error, code)`: the message is
written as one line. -/
def httpError (w : ResponseWriter) (error : String) (code : Nat) : ResponseWriter :=
  let h := ((w.header.Del "Content-Length").Set "Content-Type" "text/plain; charset=utf-8").Set
    "X-Content-Type-Options" "nosniff"
  (({ w with header := h } : ResponseWriter).WriteHeader code).Write (error ++ "\n")

/-- Value of `http.StatusUnauthorized`. -/
def StatusUnauthorized : Nat := 401
/-- Value of `http.StatusMethodNotAllowed`. -/
def StatusMethodNotAllowed : Nat := 405
/-- Value of `http.StatusBadRequest`. -/
def StatusBadRequest : Nat := 400
/-- Value of `http.StatusInternalServerError`. -/
def StatusInternalServerError : Nat := 500
/-- Value of `http.MethodPost`. -/
def MethodPost : String := "POST"

/-! ## The data types of `main.go` and their JSON encodings -/

/-- One chat message, `Message`. -/
structure Message where
  /-- Field `role`. -/
  Role : String
  /-- Field `content`. -/
  Content : String
  deriving DecidableEq, Repr

/-- The inbound body, `OpenAIRequest`. A `nil` and an empty `Messages` slice
are both the empty list. -/
structure OpenAIRequest where
  /-- Field `model`. -/
  Model : String
  /-- Field `messages`. -/
  Messages : List Message
  /-- Field `stream`. -/
  Stream : Bool
  deriving DecidableEq, Repr

/-- The upstream body, `DeepSeekRequest`; `ConversationId` has Go type `any`
and is held as the JSON value it encodes to. -/
structure DeepSeekRequest where
  /-- Field `message`. -/
  Message : String
  /-- Field `conversationId`. -/
  ConversationId : Json

/-- The upstream answer, `DeepSeekResponse`. -/
structure DeepSeekResponse where
  /-- Field `response`. -/
  Response : String
  /-- Field `conversation_id`. -/
  ConversationId : String
  deriving DecidableEq, Repr

/-- One choice of a completion, `Choice`. -/
structure Choice where
  /-- Field `message`. -/
  Message : Message
  /-- Field `finish_reason`. -/
  FinishReason : String
  /-- Field `index`. -/
  Index : Int
  deriving DecidableEq, Repr

/-- The completion object, `OpenAIResponse`. -/
structure OpenAIResponse where
  /-- Field `id`. -/
  Id : String
  /-- Field `object`. -/
  Object : String
  /-- Field `created`. -/
  Created : Int
  /-- Field `model`. -/
  Model : String
  /-- Field `choices`. -/
  Choices : List Choice
  deriving DecidableEq, Repr

/-- The increment of a stream chunk, `Delta`; both fields are tagged
`omitempty`. -/
structure Delta where
  /-- Field `role,omitempty`. -/
  Role : String := ""
  /-- Field `content,omitempty`. -/
  Content : String := ""
  deriving DecidableEq, Repr

/-- One choice of a stream chunk, `StreamChoice`. -/
structure StreamChoice where
  /-- Field `index`. -/
  Index : Int
  /-- Field `delta`. -/
  Delta : Delta
  /-- Field `finish_reason,omitempty`. -/
  FinishReason : String := ""
  deriving DecidableEq, Repr

/-- One stream chunk, `OpenAIStreamResponse`. -/
structure OpenAIStreamResponse where
  /-- Field `id`. -/
  Id : String
  /-- Field `object`. -/
  Object : String
  /-- Field `created`. -/
  Created : Int
  /-- Field `model`. -/
  Model : String
  /-- Field `choices`. -/
  Choices : List StreamChoice
  deriving DecidableEq, Repr

/-- A struct field tagged `omitempty`: a string field is left out when it is
the empty string. -/
def omitEmpty (key value : String) : List (String × Json) :=
  if value = "" then [] else [(key, .str value)]

/-- Encoding of a `Message`. -/
def Message.toJson (m : Message) : Json :=
  .obj [("role", .str m.Role), ("content", .str m.Content)]

/-- Encoding of a `DeepSeekRequest`. -/
def DeepSeekRequest.toJson (d : DeepSeekRequest) : Json :=
  .obj [("message", .str d.Message), ("conversationId", d.ConversationId)]

/-- Encoding of a `Choice`. -/
def Choice.toJson (c : Choice) : Json :=
  .obj [("message", c.Message.toJson), ("finish_reason", .str c.FinishReason),
    ("index", .num c.Index)]

/-- Encoding of an `OpenAIResponse`. -/
def OpenAIResponse.toJson (o : OpenAIResponse) : Json :=
  .obj [("id", .str o.Id), ("object", .str o.Object), ("created", .num o.Created),
    ("model", .str o.Model), ("choices", .arr (o.Choices.map Choice.toJson))]

/-- Encoding of a `Delta`: empty fields are omitted. -/
def Delta.toJson (d : Delta) : Json :=
  .obj (omitEmpty "role" d.Role ++ omitEmpty "content" d.Content)

/-- Encoding of a `StreamChoice`: an empty `finish_reason` is omitted. -/
def StreamChoice.toJson (c : StreamChoice) : Json :=
  .obj ([("index", .num c.Index), ("delta", c.Delta.toJson)] ++
    omitEmpty "finish_reason" c.FinishReason)

/-- Encoding of an `OpenAIStreamResponse`. -/
def OpenAIStreamResponse.toJson (o : OpenAIStreamResponse) : Json :=
  .obj [("id", .str o.Id), ("object", .str o.Object), ("created", .num o.Created),
    ("model", .str o.Model), ("choices", .arr (o.Choices.map StreamChoice.toJson))]

/-- The function `mustMarshal`: the JSON text of a value.  `json.Marshal` has no
failing case on the struct types it is applied to here, so the branch that
panics is dead. -/
def mustMarshal (v : Json) : String :=
  v.render

/-! ## Requests, the outside world and the outcome of a call -/

/-- The parts of the inbound `*http.Request` that `Handler` reads. -/
structure Request where
  /-- Field `r.Method`. -/
  Method : String
  /-- Field `r.URL.Path`. -/
  Path : String
  /-- Field `r.Header`. -/
  Header : Header
  /-- The bytes of `r.Body`. -/
  Body : String
  deriving DecidableEq, Repr

/-- An outbound request as handed to `client.Do`. -/
structure ClientRequest where
  /-- Request method. -/
  Method : String
  /-- Request URL. -/
  URL : String
  /-- Request headers. -/
  Header : Header
  /-- Request body. -/
  Body : String
  deriving DecidableEq, Repr

/-- What `client.Do` returns on success: the status code and the outcome of
reading the body to its end (`io.ReadAll(resp.Body)`). -/
structure ClientResponse where
  /-- Field `resp.StatusCode`. -/
  StatusCode : Nat
  /-- The body bytes, or the text of the read error. -/
  Body : Except String String

/-- Everything `Handler` reads from outside the request.  Errors are held as
the text `err.Error()` returns. -/
structure World where
  /-- The function `os.Getenv`. -/
  Getenv : String → String
  /-- The value of `time.Now().Unix()`. -/
  now : Int
  /-- The call `json.NewDecoder(r.Body).Decode(&openAIReq)` on the bytes of the
  body. -/
  decodeRequest : String → Except String OpenAIRequest
  /-- The call `client.Do(req)`. -/
  Do : ClientRequest → Except String ClientResponse
  /-- The call `json.Unmarshal(body, &deepSeekResp)`. -/
  decodeResponse : String → Except String DeepSeekResponse

/-- What one call of `Handler` did. -/
structure Outcome where
  /-- Final state of the response writer. -/
  w : ResponseWriter
  /-- The requests handed to `client.Do`, in order. -/
  calls : List ClientRequest
  /-- The value of the run-time panic that ended the call, if any. -/
  panicked : Option String := none
  deriving DecidableEq, Repr

/-- Indexing of a Go slice, `xs[i]`, with its bounds check: `none` stands for
the run-time panic `index out of range`. -/
def sliceIndex {α : Type} (xs : List α) (i : Int) : Option α :=
  if 0 ≤ i ∧ i < (xs.length : Int) then xs.get? i.toNat else none

/-- Setting of a header of an outbound request, `req.Header.Set(key, value)`. -/
def ClientRequest.SetHeader (req : ClientRequest) (key value : String) : ClientRequest :=
  { req with Header := req.Header.Set key value }

/-- Lines 110 to 137 of `Handler`: the upstream request built from the last
message.  Neither `json.Marshal` on a struct of a string and a nil interface
nor `http.NewRequest` on the constant method and URL can fail, so the two error
branches of the source are dead. -/
def upstreamRequest (lastMessage : String) : ClientRequest :=
  let deepSeekReq : DeepSeekRequest := { Message := lastMessage, ConversationId := .null }
  let reqBody := deepSeekReq.toJson.render
  let req : ClientRequest :=
    { Method := "POST", URL := "https://instantseek.org/api/chat", Header := [], Body := reqBody }
  let req := req.SetHeader "sec-ch-ua-platform" "Windows"
  let req := req.SetHeader "User-Agent" "Mozilla/5.0 (Windows NT 10.0; Win64; x64) AppleWebKit/537.36 (KHTML, like Gecko) Chrome/133.0.0.0 Safari/537.36 Edg/133.0.0.0"
  let req := req.SetHeader "sec-ch-ua" "\"Not(A:Brand\";v=\"99\", \"Microsoft Edge\";v=\"133\", \"Chromium\";v=\"133\""
  let req := req.SetHeader "Content-Type" "application/json"
  let req := req.SetHeader "sec-ch-ua-mobile" "?0"
  let req := req.SetHeader "Accept" "*/*"
  let req := req.SetHeader "Sec-Fetch-Site" "same-origin"
  let req := req.SetHeader "Sec-Fetch-Mode" "cors"
  let req := req.SetHeader "Sec-Fetch-Dest" "empty"
  let req := req.SetHeader "host" "instantseek.org"
  req

/-- One server-sent event, `fmt.Fprintf(w, "data: %s\n\n", payload)`. -/
def sseEvent (payload : String) : String :=
  "data: " ++ payload ++ "\n\n"

/-- Lines 158 to 230 of `Handler`: the completion built from the upstream
answer and written either as an event stream or as one JSON line. -/
def writeCompletion (env : World) (r : Request) (w : ResponseWriter)
    (openAIReq : OpenAIRequest) (deepSeekResp : DeepSeekResponse) : ResponseWriter :=
  let stream := openAIReq.Stream || r.Header.Get "Accept" == "text/event-stream"
  let openAIResp : OpenAIResponse :=
    { Id := "chatcmpl-" ++ deepSeekResp.ConversationId
      Object := "chat.completion"
      Created := env.now
      Model := "deepseek-chat"
      Choices := [{ Message := { Role := "assistant", Content := deepSeekResp.Response }
                    FinishReason := "stop"
                    Index := 0 }] }
  let w := w.SetHeader "Content-Type" "application/json"
  if stream then
    let w := w.SetHeader "Content-Type" "text/event-stream"
    let w := w.SetHeader "Cache-Control" "no-cache"
    let w := w.SetHeader "Connection" "keep-alive"
    let roleResp : OpenAIStreamResponse :=
      { Id := openAIResp.Id
        Object := "chat.completion.chunk"
        Created := openAIResp.Created
        Model := openAIResp.Model
        Choices := [{ Index := 0, Delta := { Role := "assistant" } }] }
    let w := w.Write (sseEvent (mustMarshal roleResp.toJson))
    let contentResp : OpenAIStreamResponse :=
      { Id := openAIResp.Id
        Object := "chat.completion.chunk"
        Created := openAIResp.Created
        Model := openAIResp.Model
        Choices := [{ Index := 0, Delta := { Content := deepSeekResp.Response } }] }
    let w := w.Write (sseEvent (mustMarshal contentResp.toJson))
    let finishResp : OpenAIStreamResponse :=
      { Id := openAIResp.Id
        Object := "chat.completion.chunk"
        Created := openAIResp.Created
        Model := openAIResp.Model
        Choices := [{ Index := 0, Delta := {}, FinishReason := "stop" }] }
    let w := w.Write (sseEvent (mustMarshal finishResp.toJson))
    w.Write "data: [DONE]\n\n"
  else
    w.Write (encodeLine openAIResp.toJson)

/-- The function `Handler(w, r)`, started on a fresh response writer. -/
def Handler (env : World) (r : Request) : Outcome :=
  let w : ResponseWriter := {}
  let authToken := env.Getenv "AUTH_TOKEN"
  if authToken ≠ "" ∧ r.Header.Get "Authorization" ≠ "Bearer " ++ authToken then
    { w := httpError w "Unauthorized" StatusUnauthorized, calls := [] }
  else if r.Path ≠ "/v1/chat/completions" then
    let w := w.SetHeader "Content-Type" "application/json"
    let w := w.Write (encodeLine (marshalStringMap
      [("status", "InstantSeek2Api Service Running..."), ("message", "MoLoveSze...")]))
    { w := w, calls := [] }
  else if r.Method ≠ MethodPost then
    { w := httpError w "Method not allowed" StatusMethodNotAllowed, calls := [] }
  else
    match env.decodeRequest r.Body with
    | .error err => { w := httpError w err StatusBadRequest, calls := [] }
    | .ok openAIReq =>
      if openAIReq.Model ≠ "deepseek-chat" then
        { w := httpError w "Only deepseek-chat model is supported" StatusBadRequest, calls := [] }
      else
        match sliceIndex openAIReq.Messages ((openAIReq.Messages.length : Int) - 1) with
        | none =>
          { w := w, calls := [], panicked := some "runtime error: index out of range [-1]" }
        | some last =>
          let lastMessage := last.Content
          let req := upstreamRequest lastMessage
          match env.Do req with
          | .error err => { w := httpError w err StatusInternalServerError, calls := [req] }
          | .ok resp =>
            match resp.Body with
            | .error err => { w := httpError w err StatusInternalServerError, calls := [req] }
            | .ok body =>
              match env.decodeResponse body with
              | .error err =>
                { w := httpError w err StatusInternalServerError, calls := [req] }
              | .ok deepSeekResp =>
                { w := writeCompletion env r w openAIReq deepSeekResp, calls := [req] }

/-! ## Vocabulary of the statements -/

/-- The request passes the authentication gate: no token is configured, or the
`Authorization` header is `Bearer ` followed by the configured token. -/
abbrev Authenticated (env : World) (r : Request) : Prop :=
  env.Getenv "AUTH_TOKEN" = "" ∨
    r.Header.Get "Authorization" = "Bearer " ++ env.Getenv "AUTH_TOKEN"

/-- An accepted request: it passes authentication, it is a POST to the chat
path, its body decodes to `q`, the model of `q` is the supported one, and
`last` is the last element of the (hence non-empty) message list of `q`. -/
def Accepted (env : World) (r : Request) (q : OpenAIRequest) (last : Message) : Prop :=
  Authenticated env r ∧ r.Path = "/v1/chat/completions" ∧ r.Method = "POST" ∧
    env.decodeRequest r.Body = .ok q ∧ q.Model = "deepseek-chat" ∧
    q.Messages.getLast? = some last

/-- The streaming selector of the handler: the `stream` field of the body is
true or the `Accept` header is exactly `text/event-stream`. -/
abbrev WantsStream (r : Request) (q : OpenAIRequest) : Prop :=
  q.Stream = true ∨ r.Header.Get "Accept" = "text/event-stream"

/-- The upstream call succeeds and decodes: `client.Do` on the request built
from `last` returns `resp`, its body reads as `body`, and `body` decodes to
`d`. -/
def UpstreamAnswers (env : World) (last : Message) (resp : ClientResponse) (body : String)
    (d : DeepSeekResponse) : Prop :=
  env.Do (upstreamRequest last.Content) = .ok resp ∧ resp.Body = .ok body ∧
    env.decodeResponse body = .ok d

/-- The completion object of the specification, as a JSON value. -/
def completionJson (c r : String) (created : Int) : Json :=
  .obj [("id", .str ("chatcmpl-" ++ c)), ("object", .str "chat.completion"),
    ("created", .num created), ("model", .str "deepseek-chat"),
    ("choices", .arr [.obj [("message", .obj [("role", .str "assistant"), ("content", .str r)]),
      ("finish_reason", .str "stop"), ("index", .num 0)]])]

/-- A stream chunk of the specification, as a JSON value: the shared fields,
one choice with index 0 and the given delta, and `finish_reason` when there is
one. -/
def chunkJson (c : String) (created : Int) (delta : Json) (finish : Option String) : Json :=
  .obj [("id", .str ("chatcmpl-" ++ c)), ("object", .str "chat.completion.chunk"),
    ("created", .num created), ("model", .str "deepseek-chat"),
    ("choices", .arr [.obj ([("index", .num 0), ("delta", delta)] ++
      match finish with
      | none => []
      | some f => [("finish_reason", .str f)])])]

/-- The four events of a stream whose content chunk carries `delta`: role
chunk, content chunk, terminal chunk, then the literal `[DONE]`. -/
def fourEvents (c : String) (created : Int) (delta : Json) : String :=
  sseEvent (chunkJson c created (.obj [("role", .str "assistant")]) none).render ++
    sseEvent (chunkJson c created delta none).render ++
    sseEvent (chunkJson c created (.obj []) (some "stop")).render ++
    sseEvent "[DONE]"

/-- The event stream as the specification words it: the delta of the content
chunk is `{content: r}` for every `r`. -/
def specStreamBody (c r : String) (created : Int) : String :=
  fourEvents c created (.obj [("content", .str r)])

/-- The delta of the content chunk as the encoder writes it: `{content: r}`,
and the empty object when `r` is empty. -/
def contentDelta (r : String) : Json :=
  if r = "" then .obj [] else .obj [("content", .str r)]

/-- A world in which `AUTH_TOKEN` is `token`, the clock reads `1700000000`,
every inbound body decodes to `decoded`, every upstream call returns `upstream`
and every upstream body decodes to `answer`. -/
def sampleWorld (token : String) (decoded : Except String OpenAIRequest)
    (upstream : Except String ClientResponse) (answer : Except String DeepSeekResponse) : World :=
  { Getenv := fun k => if k = "AUTH_TOKEN" then token else ""
    now := 1700000000
    decodeRequest := fun _ => decoded
    Do := fun _ => upstream
    decodeResponse := fun _ => answer }

/-- The request `POST /v1/chat/completions` with the given headers and body. -/
def chatPost (h : Header) (body : String) : Request :=
  { Method := "POST", Path := "/v1/chat/completions", Header := h, Body := body }

/-- The decoded body `{model: "deepseek-chat", messages: [{user, hello}]}` with
the given `stream` flag. -/
def helloRequest (stream : Bool) : OpenAIRequest :=
  { Model := "deepseek-chat", Messages := [{ Role := "user", Content := "hello" }],
    Stream := stream }

/-! ## Auxiliary facts -/

theorem sliceIndex_last {α : Type} (xs : List α) (last : α) (h : xs.getLast? = some last) :
    sliceIndex xs ((xs.length : Int) - 1) = some last := by
  cases xs with
  | nil => simp at h
  | cons x rest =>
    have hlen : ((x :: rest).length : Int) - 1 = (rest.length : Int) := by
      simp
    rw [hlen]
    unfold sliceIndex
    have h1 : (0 : Int) ≤ (rest.length : Int) ∧ (rest.length : Int) < ((x :: rest).length : Int) := by
      constructor
      · exact Int.natCast_nonneg _
      · simp
    rw [if_pos h1]
    rw [List.getLast?_eq_getElem?] at h
    simpa using h

theorem sliceIndex_nil {α : Type} : sliceIndex ([] : List α) (((([] : List α).length : Nat) : Int) - 1) = none := by
  simp [sliceIndex]

theorem Handler_accepted (env : World) (r : Request) (q : OpenAIRequest) (last : Message)
    (h : Accepted env r q last) :
    Handler env r =
      match env.Do (upstreamRequest last.Content) with
      | .error err =>
        { w := httpError {} err StatusInternalServerError, calls := [upstreamRequest last.Content] }
      | .ok resp =>
        match resp.Body with
        | .error err =>
          { w := httpError {} err StatusInternalServerError,
            calls := [upstreamRequest last.Content] }
        | .ok body =>
          match env.decodeResponse body with
          | .error err =>
            { w := httpError {} err StatusInternalServerError,
              calls := [upstreamRequest last.Content] }
          | .ok d =>
            { w := writeCompletion env r {} q d, calls := [upstreamRequest last.Content] } := by
  obtain ⟨hauth, hpath, hmeth, hdec, hmodel, hlast⟩ := h
  have hgate : ¬ (env.Getenv "AUTH_TOKEN" ≠ "" ∧
      r.Header.Get "Authorization" ≠ "Bearer " ++ env.Getenv "AUTH_TOKEN") := by
    rintro ⟨h1, h2⟩
    rcases hauth with h3 | h3
    · exact h1 h3
    · exact h2 h3
  unfold Handler
  simp only [if_neg hgate, hpath, hmeth, MethodPost, ne_eq, not_true_eq_false, if_false, hdec,
    hmodel, sliceIndex_last _ _ hlast]

theorem Handler_answered (env : World) (r : Request) (q : OpenAIRequest) (last : Message)
    (resp : ClientResponse) (body : String) (d : DeepSeekResponse)
    (h : Accepted env r q last) (hu : UpstreamAnswers env last resp body d) :
    Handler env r =
      { w := writeCompletion env r {} q d, calls := [upstreamRequest last.Content] } := by
  obtain ⟨hdo, hbody, hdec⟩ := hu
  rw [Handler_accepted env r q last h]
  simp only [hdo, hbody, hdec]

theorem not_gate_of_authenticated (env : World) (r : Request) (h : Authenticated env r) :
    ¬ (env.Getenv "AUTH_TOKEN" ≠ "" ∧
      r.Header.Get "Authorization" ≠ "Bearer " ++ env.Getenv "AUTH_TOKEN") := by
  rintro ⟨h1, h2⟩
  rcases h with h3 | h3
  · exact h1 h3
  · exact h2 h3

theorem writeCompletion_stream (env : World) (r : Request) (q : OpenAIRequest)
    (d : DeepSeekResponse) (h : WantsStream r q) :
    writeCompletion env r {} q d =
      { header := [("Content-Type", ["text/event-stream"]), ("Cache-Control", ["no-cache"]),
          ("Connection", ["keep-alive"])]
        code := some 200
        body := fourEvents d.ConversationId env.now (contentDelta d.Response) } := by
  have hs : (q.Stream || r.Header.Get "Accept" == "text/event-stream") = true := by
    rcases h with h | h
    · simp [h]
    · simp [h]
  unfold writeCompletion
  simp only [hs, if_true]
  have hdelta : Delta.toJson { Content := d.Response } = contentDelta d.Response := by
    unfold Delta.toJson contentDelta omitEmpty
    by_cases hr : d.Response = ""
    · simp [hr]
    · simp [hr]
  simp only [ResponseWriter.SetHeader, ResponseWriter.Write, ResponseWriter.WriteHeader,
    mustMarshal, OpenAIStreamResponse.toJson, StreamChoice.toJson, List.map, hdelta]
  rfl

theorem writeCompletion_plain (env : World) (r : Request) (q : OpenAIRequest)
    (d : DeepSeekResponse) (h : ¬ WantsStream r q) :
    writeCompletion env r {} q d =
      { header := [("Content-Type", ["application/json"])]
        code := some 200
        body := encodeLine (completionJson d.ConversationId d.Response env.now) } := by
  have hs : (q.Stream || r.Header.Get "Accept" == "text/event-stream") = false := by
    simp only [WantsStream, not_or] at h
    simp [h.1, h.2]
  unfold writeCompletion
  simp only [hs]
  rfl

theorem Handler_unauthorized (env : World) (r : Request)
    (h : env.Getenv "AUTH_TOKEN" ≠ "" ∧
      r.Header.Get "Authorization" ≠ "Bearer " ++ env.Getenv "AUTH_TOKEN") :
    Handler env r = { w := httpError {} "Unauthorized" StatusUnauthorized, calls := [] } := by
  unfold Handler
  simp only [if_pos h]

theorem Handler_other_path (env : World) (r : Request) (hauth : Authenticated env r)
    (hpath : r.Path ≠ "/v1/chat/completions") :
    Handler env r =
      { w := (({} : ResponseWriter).SetHeader "Content-Type" "application/json").Write
          (encodeLine (marshalStringMap
            [("status", "InstantSeek2Api Service Running..."), ("message", "MoLoveSze...")]))
        calls := [] } := by
  unfold Handler
  simp only [if_neg (not_gate_of_authenticated env r hauth), ne_eq, hpath, not_false_eq_true,
    if_true]

theorem Handler_wrong_method (env : World) (r : Request) (hauth : Authenticated env r)
    (hpath : r.Path = "/v1/chat/completions") (hmeth : r.Method ≠ "POST") :
    Handler env r =
      { w := httpError {} "Method not allowed" StatusMethodNotAllowed, calls := [] } := by
  unfold Handler
  simp only [if_neg (not_gate_of_authenticated env r hauth), hpath, MethodPost, ne_eq,
    not_true_eq_false, if_false, hmeth, not_false_eq_true, if_true]

theorem Handler_unsupported_model (env : World) (r : Request) (q : OpenAIRequest)
    (hauth : Authenticated env r) (hpath : r.Path = "/v1/chat/completions")
    (hmeth : r.Method = "POST") (hdec : env.decodeRequest r.Body = .ok q)
    (hmodel : q.Model ≠ "deepseek-chat") :
    Handler env r =
      { w := httpError {} "Only deepseek-chat model is supported" StatusBadRequest
        calls := [] } := by
  unfold Handler
  simp only [if_neg (not_gate_of_authenticated env r hauth), hpath, hmeth, MethodPost, ne_eq,
    not_true_eq_false, if_false, hdec, hmodel, not_false_eq_true, if_true]

theorem Handler_empty_messages (env : World) (r : Request) (q : OpenAIRequest)
    (hauth : Authenticated env r) (hpath : r.Path = "/v1/chat/completions")
    (hmeth : r.Method = "POST") (hdec : env.decodeRequest r.Body = .ok q)
    (hmodel : q.Model = "deepseek-chat") (hempty : q.Messages = []) :
    Handler env r =
      { w := {}, calls := [], panicked := some "runtime error: index out of range [-1]" } := by
  unfold Handler
  simp only [if_neg (not_gate_of_authenticated env r hauth), hpath, hmeth, MethodPost, ne_eq,
    not_true_eq_false, if_false, hdec, hmodel, hempty, sliceIndex_nil]

theorem httpError_fresh (msg : String) (code : Nat) :
    httpError {} msg code =
      { header := [("Content-Type", ["text/plain; charset=utf-8"]),
          ("X-Content-Type-Options", ["nosniff"])]
        code := some code
        body := msg ++ "\n" } := by
  rfl

theorem writeCompletion_code (env : World) (r : Request) (q : OpenAIRequest)
    (d : DeepSeekResponse) : (writeCompletion env r {} q d).code = some 200 := by
  by_cases h : WantsStream r q
  · rw [writeCompletion_stream env r q d h]
  · rw [writeCompletion_plain env r q d h]

theorem writeCompletion_congr (env : World) (r r2 : Request) (q : OpenAIRequest)
    (d : DeepSeekResponse) (w : ResponseWriter)
    (h : r2.Header.Get "Accept" = r.Header.Get "Accept") :
    writeCompletion env r2 w q d = writeCompletion env r w q d := by
  unfold writeCompletion
  rw [h]

theorem code_ne_unauthorized (env : World) (r : Request)
    (h : ¬ (env.Getenv "AUTH_TOKEN" ≠ "" ∧
      r.Header.Get "Authorization" ≠ "Bearer " ++ env.Getenv "AUTH_TOKEN")) :
    (Handler env r).w.code ≠ some 401 := by
  unfold Handler
  simp only [if_neg h]
  split_ifs with hpath hmeth
  · simp [ResponseWriter.Write, ResponseWriter.WriteHeader, ResponseWriter.SetHeader]
  · simp [httpError_fresh, StatusMethodNotAllowed]
  · split
    · simp [httpError_fresh, StatusBadRequest]
    · split_ifs with hmodel
      · simp [httpError_fresh, StatusBadRequest]
      · split
        · simp
        · split
          · simp [httpError_fresh, StatusInternalServerError]
          · split
            · simp [httpError_fresh, StatusInternalServerError]
            · split
              · simp [httpError_fresh, StatusInternalServerError]
              · simp [writeCompletion_code]

theorem Handler_open_congr (env : World) (r r2 : Request)
    (htok : env.Getenv "AUTH_TOKEN" = "") (hm : r2.Method = r.Method) (hp : r2.Path = r.Path)
    (hb : r2.Body = r.Body) (ha : r2.Header.Get "Accept" = r.Header.Get "Accept") :
    Handler env r2 = Handler env r := by
  unfold Handler
  simp only [htok, ne_eq, not_true_eq_false, false_and, if_false, hm, hp, hb,
    writeCompletion_congr env r r2 _ _ _ ha]

/-! ## The claims -/

/-- C1: for every accepted request (authenticated POST to the chat path whose
body decodes with the supported model and a non-empty message list), `Handler`
hands exactly one request to the upstream client, and the body of that request
is the JSON object with `message` equal to the content of the last message and
`conversationId` equal to `null`; the role of the last message and the earlier
messages play no part. -/
theorem C1_one_upstream_call_with_last_message (env : World) (r : Request) (q : OpenAIRequest)
    (last : Message) (h : Accepted env r q last) :
    (Handler env r).calls.length = 1 ∧
      (Handler env r).calls.map ClientRequest.Method = ["POST"] ∧
      (Handler env r).calls.map ClientRequest.URL = ["https://instantseek.org/api/chat"] ∧
      (Handler env r).calls.map ClientRequest.Body =
        [(Json.obj [("message", .str last.Content), ("conversationId", .null)]).render] := by
  have hcalls : (Handler env r).calls = [upstreamRequest last.Content] := by
    rw [Handler_accepted env r q last h]
    split
    · rfl
    · split
      · rfl
      · split <;> rfl
  rw [hcalls]
  exact ⟨rfl, rfl, rfl, rfl⟩

/-- Witness of C1: a token-protected call with three messages, the last one
from the assistant, and an upstream that refuses the connection. -/
theorem C1_one_upstream_call_witness :
    (Handler
        (sampleWorld "secret"
          (.ok ⟨"deepseek-chat",
            [⟨"system", "be brief"⟩, ⟨"user", "hello"⟩, ⟨"assistant", "last words"⟩], false⟩)
          (.error "connection refused") (.error "unexpected end of JSON input"))
        (chatPost [("Authorization", ["Bearer secret"])] "")).calls.length = 1 ∧
      (Handler
        (sampleWorld "secret"
          (.ok ⟨"deepseek-chat",
            [⟨"system", "be brief"⟩, ⟨"user", "hello"⟩, ⟨"assistant", "last words"⟩], false⟩)
          (.error "connection refused") (.error "unexpected end of JSON input"))
        (chatPost [("Authorization", ["Bearer secret"])] "")).calls.map ClientRequest.Method =
        ["POST"] ∧
      (Handler
        (sampleWorld "secret"
          (.ok ⟨"deepseek-chat",
            [⟨"system", "be brief"⟩, ⟨"user", "hello"⟩, ⟨"assistant", "last words"⟩], false⟩)
          (.error "connection refused") (.error "unexpected end of JSON input"))
        (chatPost [("Authorization", ["Bearer secret"])] "")).calls.map ClientRequest.URL =
        ["https://instantseek.org/api/chat"] ∧
      (Handler
        (sampleWorld "secret"
          (.ok ⟨"deepseek-chat",
            [⟨"system", "be brief"⟩, ⟨"user", "hello"⟩, ⟨"assistant", "last words"⟩], false⟩)
          (.error "connection refused") (.error "unexpected end of JSON input"))
        (chatPost [("Authorization", ["Bearer secret"])] "")).calls.map ClientRequest.Body =
        ["\x7b\"message\":\"last words\",\"conversationId\":null\x7d"] :=
  C1_one_upstream_call_with_last_message _ _ _ ⟨"assistant", "last words"⟩
    ⟨by decide, rfl, rfl, rfl, rfl, rfl⟩

/-- C2: `Handler` answers 401 exactly when `AUTH_TOKEN` is non-empty and the
`Authorization` header differs from `Bearer ` followed by the token; in that
case the body is the line `Unauthorized` and no upstream call is made.  When
`AUTH_TOKEN` is empty, two requests that agree on method, path, body and every
header other than `Authorization` have the same outcome: the same response and
the same upstream calls. -/
theorem C2_unauthorized_exactly_on_token_mismatch (env : World) (r : Request) :
    ((Handler env r).w.code = some 401 ↔
      (env.Getenv "AUTH_TOKEN" ≠ "" ∧
        r.Header.Get "Authorization" ≠ "Bearer " ++ env.Getenv "AUTH_TOKEN")) ∧
    ((env.Getenv "AUTH_TOKEN" ≠ "" ∧
        r.Header.Get "Authorization" ≠ "Bearer " ++ env.Getenv "AUTH_TOKEN") →
      (Handler env r).w.body = "Unauthorized\n" ∧ (Handler env r).calls = [] ∧
        (Handler env r).panicked = none) ∧
    (env.Getenv "AUTH_TOKEN" = "" → ∀ r2 : Request,
      r2.Method = r.Method → r2.Path = r.Path → r2.Body = r.Body →
      (∀ k : String, canonicalMIMEHeaderKey k ≠ "Authorization" →
        r2.Header.Get k = r.Header.Get k) →
      Handler env r2 = Handler env r) := by
  refine ⟨⟨?_, ?_⟩, ?_, ?_⟩
  · intro hcode
    by_contra hno
    exact code_ne_unauthorized env r hno hcode
  · intro hbad
    rw [Handler_unauthorized env r hbad]
    rfl
  · intro hbad
    rw [Handler_unauthorized env r hbad]
    exact ⟨rfl, rfl, rfl⟩
  · intro htok r2 hm hp hb hh
    exact Handler_open_congr env r r2 htok hm hp hb (hh "Accept" (by decide))

/-- Witness of C2: with token `secret` a request without `Authorization` gets
401, the line `Unauthorized` and no upstream call; with no token, a request
carrying a stray `Authorization` header has the outcome of the bare request. -/
theorem C2_unauthorized_witness :
    ((Handler (sampleWorld "secret" (.ok (helloRequest false)) (.error "connection refused")
        (.error "unexpected end of JSON input")) (chatPost [] "")).w.code = some 401 ∧
      (Handler (sampleWorld "secret" (.ok (helloRequest false)) (.error "connection refused")
        (.error "unexpected end of JSON input")) (chatPost [] "")).w.body = "Unauthorized\n" ∧
      (Handler (sampleWorld "secret" (.ok (helloRequest false)) (.error "connection refused")
        (.error "unexpected end of JSON input")) (chatPost [] "")).calls = []) ∧
    Handler (sampleWorld "" (.ok (helloRequest false)) (.error "connection refused")
        (.error "unexpected end of JSON input"))
        (chatPost [("Authorization", ["Bearer anything"])] "") =
      Handler (sampleWorld "" (.ok (helloRequest false)) (.error "connection refused")
        (.error "unexpected end of JSON input")) (chatPost [] "") :=
  ⟨⟨(C2_unauthorized_exactly_on_token_mismatch _ _).1.2 (by decide),
      ((C2_unauthorized_exactly_on_token_mismatch _ _).2.1 (by decide)).1,
      ((C2_unauthorized_exactly_on_token_mismatch _ _).2.1 (by decide)).2.1⟩,
    (C2_unauthorized_exactly_on_token_mismatch
      (sampleWorld "" (.ok (helloRequest false)) (.error "connection refused")
        (.error "unexpected end of JSON input")) (chatPost [] "")).2.2 rfl
      (chatPost [("Authorization", ["Bearer anything"])] "") rfl rfl rfl
      (fun k hk => by
        simp only [chatPost, Header.Get, List.lookup]
        have : (canonicalMIMEHeaderKey k == "Authorization") = false := by
          simpa using hk
        simp [this])⟩

/-- C3: for every accepted request with `stream` false and an `Accept` header
other than `text/event-stream`, and every upstream body that decodes to
`{response: r, conversation_id: c}`, `Handler` answers 200 with one JSON object
whose `id` is `chatcmpl-` followed by `c`, whose `object` is `chat.completion`,
whose `model` is `deepseek-chat`, and whose `choices` is the one-element list
holding `{message: {role: assistant, content: r}, finish_reason: stop,
index: 0}`. -/
theorem C3_plain_completion (env : World) (r : Request) (q : OpenAIRequest) (last : Message)
    (resp : ClientResponse) (body : String) (c rtext : String)
    (h : Accepted env r q last) (hstream : q.Stream = false)
    (haccept : r.Header.Get "Accept" ≠ "text/event-stream")
    (hu : UpstreamAnswers env last resp body ⟨rtext, c⟩) :
    (Handler env r).w.code = some 200 ∧
      (Handler env r).w.body = encodeLine (completionJson c rtext env.now) ∧
      (Handler env r).panicked = none := by
  have hno : ¬ WantsStream r q := by
    simp [WantsStream, hstream, haccept]
  rw [Handler_answered env r q last resp body _ h hu]
  rw [writeCompletion_plain env r q _ hno]
  exact ⟨rfl, rfl, rfl⟩

/-- Witness of C3: the upstream answer `{response: "hi there",
conversation_id: "abc123"}` gives the id `chatcmpl-abc123`. -/
theorem C3_plain_completion_witness :
    (Handler (sampleWorld "" (.ok (helloRequest false)) (.ok ⟨200, .ok "upstream body"⟩)
        (.ok ⟨"hi there", "abc123"⟩)) (chatPost [] "")).w.code = some 200 ∧
      (Handler (sampleWorld "" (.ok (helloRequest false)) (.ok ⟨200, .ok "upstream body"⟩)
        (.ok ⟨"hi there", "abc123"⟩)) (chatPost [] "")).w.body =
        "\x7b\"id\":\"chatcmpl-abc123\",\"object\":\"chat.completion\",\"created\":1700000000,\"model\":\"deepseek-chat\",\"choices\":[\x7b\"message\":\x7b\"role\":\"assistant\",\"content\":\"hi there\"\x7d,\"finish_reason\":\"stop\",\"index\":0\x7d]\x7d\n" ∧
      (Handler (sampleWorld "" (.ok (helloRequest false)) (.ok ⟨200, .ok "upstream body"⟩)
        (.ok ⟨"hi there", "abc123"⟩)) (chatPost [] "")).panicked = none :=
  C3_plain_completion _ _ (helloRequest false) ⟨"user", "hello"⟩ ⟨200, .ok "upstream body"⟩
    "upstream body" "abc123" "hi there" ⟨by decide, rfl, rfl, rfl, rfl, rfl⟩ rfl (by decide)
    ⟨rfl, rfl, rfl⟩

/-- Counterexample to C4 as stated: on the streaming path with the upstream
answer `{response: "", conversation_id: "abc123"}` the delta of the second
event is the empty object, not `{content: ""}`, so the body written differs
from the stream the claim describes. -/
theorem C4_empty_response_counterexample :
    (Handler (sampleWorld "" (.ok (helloRequest true)) (.ok ⟨200, .ok "upstream body"⟩)
        (.ok ⟨"", "abc123"⟩)) (chatPost [] "")).w.body =
      "data: \x7b\"id\":\"chatcmpl-abc123\",\"object\":\"chat.completion.chunk\",\"created\":1700000000,\"model\":\"deepseek-chat\",\"choices\":[\x7b\"index\":0,\"delta\":\x7b\"role\":\"assistant\"\x7d\x7d]\x7d\n\ndata: \x7b\"id\":\"chatcmpl-abc123\",\"object\":\"chat.completion.chunk\",\"created\":1700000000,\"model\":\"deepseek-chat\",\"choices\":[\x7b\"index\":0,\"delta\":\x7b\x7d\x7d]\x7d\n\ndata: \x7b\"id\":\"chatcmpl-abc123\",\"object\":\"chat.completion.chunk\",\"created\":1700000000,\"model\":\"deepseek-chat\",\"choices\":[\x7b\"index\":0,\"delta\":\x7b\x7d,\"finish_reason\":\"stop\"\x7d]\x7d\n\ndata: [DONE]\n\n" ∧
    (Handler (sampleWorld "" (.ok (helloRequest true)) (.ok ⟨200, .ok "upstream body"⟩)
        (.ok ⟨"", "abc123"⟩)) (chatPost [] "")).w.body ≠
      specStreamBody "abc123" "" 1700000000 := by
  decide

/-- C4, amended: for every accepted request on the streaming path and every
upstream answer `{response: r, conversation_id: c}`, the body written is exactly
four events `data: <payload>` each ended by a blank line: the role chunk (delta
`{role: assistant}`, no `finish_reason`), the content chunk, the terminal chunk
(empty delta, `finish_reason` `stop`), and the literal `[DONE]`.  The delta of
the content chunk is `{content: r}` when `r` is not empty and the empty object
when `r` is empty.  The three chunks carry `object` `chat.completion.chunk`,
index 0, one choice, and the same `id` (`chatcmpl-` then `c`), `created` and
`model`. -/
theorem C4_stream_events (env : World) (r : Request) (q : OpenAIRequest) (last : Message)
    (resp : ClientResponse) (body : String) (c rtext : String)
    (h : Accepted env r q last) (hs : WantsStream r q)
    (hu : UpstreamAnswers env last resp body ⟨rtext, c⟩) :
    (Handler env r).w.body =
      fourEvents c env.now (if rtext = "" then .obj [] else .obj [("content", .str rtext)]) := by
  rw [Handler_answered env r q last resp body _ h hu, writeCompletion_stream env r q _ hs]
  rfl

/-- Witness of C4: the streamed answer `hi there` of conversation `abc123`,
selected by the `Accept` header alone. -/
theorem C4_stream_events_witness :
    (Handler (sampleWorld "" (.ok (helloRequest false)) (.ok ⟨200, .ok "upstream body"⟩)
        (.ok ⟨"hi there", "abc123"⟩))
        (chatPost [("Accept", ["text/event-stream"])] "")).w.body =
      "data: \x7b\"id\":\"chatcmpl-abc123\",\"object\":\"chat.completion.chunk\",\"created\":1700000000,\"model\":\"deepseek-chat\",\"choices\":[\x7b\"index\":0,\"delta\":\x7b\"role\":\"assistant\"\x7d\x7d]\x7d\n\ndata: \x7b\"id\":\"chatcmpl-abc123\",\"object\":\"chat.completion.chunk\",\"created\":1700000000,\"model\":\"deepseek-chat\",\"choices\":[\x7b\"index\":0,\"delta\":\x7b\"content\":\"hi there\"\x7d\x7d]\x7d\n\ndata: \x7b\"id\":\"chatcmpl-abc123\",\"object\":\"chat.completion.chunk\",\"created\":1700000000,\"model\":\"deepseek-chat\",\"choices\":[\x7b\"index\":0,\"delta\":\x7b\x7d,\"finish_reason\":\"stop\"\x7d]\x7d\n\ndata: [DONE]\n\n" :=
  C4_stream_events _ _ (helloRequest false) ⟨"user", "hello"⟩ ⟨200, .ok "upstream body"⟩
    "upstream body" "abc123" "hi there" ⟨by decide, rfl, rfl, rfl, rfl, rfl⟩ (by decide)
    ⟨rfl, rfl, rfl⟩

/-- C5: for every accepted request whose upstream call succeeds and decodes,
`Handler` writes the four-event stream with the headers `Content-Type:
text/event-stream`, `Cache-Control: no-cache` and `Connection: keep-alive` if
and only if the `stream` field of the body is true or the `Accept` header is
exactly `text/event-stream`; otherwise it writes one JSON completion object
with `Content-Type: application/json`. -/
theorem C5_stream_selection (env : World) (r : Request) (q : OpenAIRequest) (last : Message)
    (resp : ClientResponse) (body : String) (d : DeepSeekResponse)
    (h : Accepted env r q last) (hu : UpstreamAnswers env last resp body d) :
    (((Handler env r).w.header.Get "Content-Type" = "text/event-stream" ∧
        (Handler env r).w.header.Get "Cache-Control" = "no-cache" ∧
        (Handler env r).w.header.Get "Connection" = "keep-alive" ∧
        (Handler env r).w.body = fourEvents d.ConversationId env.now (contentDelta d.Response)) ↔
      (q.Stream = true ∨ r.Header.Get "Accept" = "text/event-stream")) ∧
    (¬ (q.Stream = true ∨ r.Header.Get "Accept" = "text/event-stream") →
      (Handler env r).w.header.Get "Content-Type" = "application/json" ∧
      (Handler env r).w.body =
        encodeLine (completionJson d.ConversationId d.Response env.now)) := by
  rw [Handler_answered env r q last resp body d h hu]
  by_cases hs : WantsStream r q
  · rw [writeCompletion_stream env r q d hs]
    exact ⟨⟨fun _ => hs, fun _ => ⟨rfl, rfl, rfl, rfl⟩⟩, fun hn => absurd hs hn⟩
  · rw [writeCompletion_plain env r q d hs]
    have hjson : Header.Get [("Content-Type", ["application/json"])] "Content-Type" ≠
        "text/event-stream" := by decide
    exact ⟨⟨fun hh => absurd hh.1 hjson, fun hh => absurd hh hs⟩, fun _ => ⟨rfl, rfl⟩⟩

/-- Witness of C5: with `stream` false, the header `Accept: text/event-stream`
selects the stream, and the header `Accept: text/event-stream, */*`, which is
not exactly that value, selects the JSON object. -/
theorem C5_stream_selection_witness :
    (Handler (sampleWorld "" (.ok (helloRequest false)) (.ok ⟨200, .ok "upstream body"⟩)
        (.ok ⟨"hi there", "abc123"⟩))
        (chatPost [("Accept", ["text/event-stream"])] "")).w.header.Get "Content-Type" =
      "text/event-stream" ∧
    (Handler (sampleWorld "" (.ok (helloRequest false)) (.ok ⟨200, .ok "upstream body"⟩)
        (.ok ⟨"hi there", "abc123"⟩))
        (chatPost [("Accept", ["text/event-stream, */*"])] "")).w.header.Get "Content-Type" =
      "application/json" :=
  ⟨((C5_stream_selection _ _ (helloRequest false) ⟨"user", "hello"⟩ ⟨200, .ok "upstream body"⟩
      "upstream body" ⟨"hi there", "abc123"⟩ ⟨by decide, rfl, rfl, rfl, rfl, rfl⟩
      ⟨rfl, rfl, rfl⟩).1.2 (by decide)).1,
    ((C5_stream_selection _ _ (helloRequest false) ⟨"user", "hello"⟩ ⟨200, .ok "upstream body"⟩
      "upstream body" ⟨"hi there", "abc123"⟩ ⟨by decide, rfl, rfl, rfl, rfl, rfl⟩
      ⟨rfl, rfl, rfl⟩).2 (by decide)).1⟩

/-- C6: for every authenticated POST to the chat path whose body decodes to a
request with a model other than `deepseek-chat` (string equality, so a
difference of case counts), `Handler` answers 400 with the line `Only
deepseek-chat model is supported` and makes no upstream call, whatever the
message list is, the empty list included. -/
theorem C6_unsupported_model (env : World) (r : Request) (q : OpenAIRequest)
    (hauth : Authenticated env r) (hpath : r.Path = "/v1/chat/completions")
    (hmeth : r.Method = "POST") (hdec : env.decodeRequest r.Body = .ok q)
    (hmodel : q.Model ≠ "deepseek-chat") :
    (Handler env r).w.code = some 400 ∧
      (Handler env r).w.body = "Only deepseek-chat model is supported\n" ∧
      (Handler env r).calls = [] ∧ (Handler env r).panicked = none := by
  rw [Handler_unsupported_model env r q hauth hpath hmeth hdec hmodel]
  exact ⟨rfl, rfl, rfl, rfl⟩

/-- Witness of C6: the model `DeepSeek-Chat`, which differs from the supported
one by case only, with an empty message list. -/
theorem C6_unsupported_model_witness :
    (Handler (sampleWorld "" (.ok ⟨"DeepSeek-Chat", [], false⟩) (.error "connection refused")
        (.error "unexpected end of JSON input")) (chatPost [] "")).w.code = some 400 ∧
      (Handler (sampleWorld "" (.ok ⟨"DeepSeek-Chat", [], false⟩) (.error "connection refused")
        (.error "unexpected end of JSON input")) (chatPost [] "")).w.body =
        "Only deepseek-chat model is supported\n" ∧
      (Handler (sampleWorld "" (.ok ⟨"DeepSeek-Chat", [], false⟩) (.error "connection refused")
        (.error "unexpected end of JSON input")) (chatPost [] "")).calls = [] ∧
      (Handler (sampleWorld "" (.ok ⟨"DeepSeek-Chat", [], false⟩) (.error "connection refused")
        (.error "unexpected end of JSON input")) (chatPost [] "")).panicked = none :=
  C6_unsupported_model _ _ ⟨"DeepSeek-Chat", [], false⟩ (by decide) rfl rfl rfl (by decide)

/-- C7: for every authenticated request to the chat path whose method is not
POST, `Handler` answers 405 and makes no upstream call, whatever the body is
and whatever the decoder would say of it: the body is not decoded. -/
theorem C7_method_not_allowed (env : World) (r : Request)
    (hauth : Authenticated env r) (hpath : r.Path = "/v1/chat/completions")
    (hmeth : r.Method ≠ "POST") :
    (Handler env r).w.code = some 405 ∧ (Handler env r).w.body = "Method not allowed\n" ∧
      (Handler env r).calls = [] ∧ (Handler env r).panicked = none := by
  rw [Handler_wrong_method env r hauth hpath hmeth]
  exact ⟨rfl, rfl, rfl, rfl⟩

/-- Witness of C7: a GET to the chat path with a body that does not decode. -/
theorem C7_method_not_allowed_witness :
    (Handler (sampleWorld "" (.error "unexpected end of JSON input")
        (.error "connection refused") (.error "unexpected end of JSON input"))
        ⟨"GET", "/v1/chat/completions", [], "not json"⟩).w.code = some 405 ∧
      (Handler (sampleWorld "" (.error "unexpected end of JSON input")
        (.error "connection refused") (.error "unexpected end of JSON input"))
        ⟨"GET", "/v1/chat/completions", [], "not json"⟩).w.body = "Method not allowed\n" ∧
      (Handler (sampleWorld "" (.error "unexpected end of JSON input")
        (.error "connection refused") (.error "unexpected end of JSON input"))
        ⟨"GET", "/v1/chat/completions", [], "not json"⟩).calls = [] ∧
      (Handler (sampleWorld "" (.error "unexpected end of JSON input")
        (.error "connection refused") (.error "unexpected end of JSON input"))
        ⟨"GET", "/v1/chat/completions", [], "not json"⟩).panicked = none :=
  C7_method_not_allowed _ _ (by decide) rfl (by decide)

/-- Counterexample to C8 as stated: with `AUTH_TOKEN` set to `secret`, a GET of
`/` without an `Authorization` header is answered 401 with the line
`Unauthorized`, not 200 with the status object. -/
theorem C8_unauthenticated_counterexample :
    (Handler (sampleWorld "secret" (.error "EOF") (.error "connection refused")
        (.error "unexpected end of JSON input")) ⟨"GET", "/", [], ""⟩).w.code = some 401 ∧
      (Handler (sampleWorld "secret" (.error "EOF") (.error "connection refused")
        (.error "unexpected end of JSON input")) ⟨"GET", "/", [], ""⟩).w.body =
        "Unauthorized\n" ∧
      (Handler (sampleWorld "secret" (.error "EOF") (.error "connection refused")
        (.error "unexpected end of JSON input")) ⟨"GET", "/", [], ""⟩).w.code ≠ some 200 := by
  decide

/-- C8, amended: for every request that passes authentication and whose path is
not `/v1/chat/completions`, whatever its method and body, `Handler` answers 200
with `Content-Type: application/json` and the fixed JSON object with `status`
`InstantSeek2Api Service Running...` and `message` `MoLoveSze...` (written in
key order), and makes no upstream call. -/
theorem C8_status_page (env : World) (r : Request)
    (hauth : Authenticated env r) (hpath : r.Path ≠ "/v1/chat/completions") :
    (Handler env r).w.code = some 200 ∧
      (Handler env r).w.header.Get "Content-Type" = "application/json" ∧
      (Handler env r).w.body =
        encodeLine (.obj [("message", .str "MoLoveSze..."),
          ("status", .str "InstantSeek2Api Service Running...")]) ∧
      (Handler env r).calls = [] ∧ (Handler env r).panicked = none := by
  rw [Handler_other_path env r hauth hpath]
  exact ⟨rfl, rfl, rfl, rfl, rfl⟩

/-- Witness of C8: a DELETE of `/health` carrying the configured token. -/
theorem C8_status_page_witness :
    (Handler (sampleWorld "secret" (.error "EOF") (.error "connection refused")
        (.error "unexpected end of JSON input"))
        ⟨"DELETE", "/health", [("Authorization", ["Bearer secret"])], ""⟩).w.code = some 200 ∧
      (Handler (sampleWorld "secret" (.error "EOF") (.error "connection refused")
        (.error "unexpected end of JSON input"))
        ⟨"DELETE", "/health", [("Authorization", ["Bearer secret"])], ""⟩).w.header.Get
          "Content-Type" = "application/json" ∧
      (Handler (sampleWorld "secret" (.error "EOF") (.error "connection refused")
        (.error "unexpected end of JSON input"))
        ⟨"DELETE", "/health", [("Authorization", ["Bearer secret"])], ""⟩).w.body =
        "\x7b\"message\":\"MoLoveSze...\",\"status\":\"InstantSeek2Api Service Running...\"\x7d\n" ∧
      (Handler (sampleWorld "secret" (.error "EOF") (.error "connection refused")
        (.error "unexpected end of JSON input"))
        ⟨"DELETE", "/health", [("Authorization", ["Bearer secret"])], ""⟩).calls = [] ∧
      (Handler (sampleWorld "secret" (.error "EOF") (.error "connection refused")
        (.error "unexpected end of JSON input"))
        ⟨"DELETE", "/health", [("Authorization", ["Bearer secret"])], ""⟩).panicked = none :=
  C8_status_page _ _ (by decide) (by decide)

/-- C9, the behaviour of the code: on an authenticated POST to the chat path
whose body decodes to the supported model with an empty message list, the
access to the last element panics with an index out of range; nothing has been
written to the response (in particular no status 400) and no upstream call has
been made. -/
theorem C9_empty_messages_panics :
    Handler (sampleWorld "" (.ok ⟨"deepseek-chat", [], false⟩) (.error "connection refused")
        (.error "unexpected end of JSON input"))
        (chatPost [] "\x7b\"model\":\"deepseek-chat\",\"messages\":[]\x7d") =
      { w := { header := [], code := none, body := "" }
        calls := []
        panicked := some "runtime error: index out of range [-1]" } := by
  decide

/-- C10: for every accepted request, if the upstream call returns a transport
error, or the body of its answer cannot be read, or that body does not decode,
then `Handler` answers 500 with the text of the error as one line, on a writer
that holds nothing else (only the headers `http.Error` sets, no other body
bytes); and whenever the upstream body decodes, `Handler` answers 200, whatever
status code the upstream answer carried. -/
theorem C10_upstream_failure_is_500 (env : World) (r : Request) (q : OpenAIRequest)
    (last : Message) (h : Accepted env r q last) :
    (∀ err : String, env.Do (upstreamRequest last.Content) = .error err →
      (Handler env r).w =
        { header := [("Content-Type", ["text/plain; charset=utf-8"]),
            ("X-Content-Type-Options", ["nosniff"])]
          code := some 500
          body := err ++ "\n" }) ∧
    (∀ (resp : ClientResponse) (err : String),
      env.Do (upstreamRequest last.Content) = .ok resp → resp.Body = .error err →
      (Handler env r).w =
        { header := [("Content-Type", ["text/plain; charset=utf-8"]),
            ("X-Content-Type-Options", ["nosniff"])]
          code := some 500
          body := err ++ "\n" }) ∧
    (∀ (resp : ClientResponse) (body err : String),
      env.Do (upstreamRequest last.Content) = .ok resp → resp.Body = .ok body →
      env.decodeResponse body = .error err →
      (Handler env r).w =
        { header := [("Content-Type", ["text/plain; charset=utf-8"]),
            ("X-Content-Type-Options", ["nosniff"])]
          code := some 500
          body := err ++ "\n" }) ∧
    (∀ (resp : ClientResponse) (body : String) (d : DeepSeekResponse),
      env.Do (upstreamRequest last.Content) = .ok resp → resp.Body = .ok body →
      env.decodeResponse body = .ok d →
      (Handler env r).w.code = some 200) := by
  rw [Handler_accepted env r q last h]
  refine ⟨?_, ?_, ?_, ?_⟩
  · intro err hdo
    simp only [hdo, httpError_fresh, StatusInternalServerError]
  · intro resp err hdo hbody
    simp only [hdo, hbody, httpError_fresh, StatusInternalServerError]
  · intro resp body err hdo hbody hdec
    simp only [hdo, hbody, hdec, httpError_fresh, StatusInternalServerError]
  · intro resp body d hdo hbody hdec
    simp only [hdo, hbody, hdec, writeCompletion_code]

/-- Witness of C10: an upstream answer with status 503 whose body decodes is
answered 200, and a refused connection is answered 500 with the error text. -/
theorem C10_upstream_failure_witness :
    (Handler (sampleWorld "" (.ok (helloRequest false)) (.ok ⟨503, .ok "upstream body"⟩)
        (.ok ⟨"hi there", "abc123"⟩)) (chatPost [] "")).w.code = some 200 ∧
    (Handler (sampleWorld "" (.ok (helloRequest false)) (.error "connection refused")
        (.ok ⟨"hi there", "abc123"⟩)) (chatPost [] "")).w =
      { header := [("Content-Type", ["text/plain; charset=utf-8"]),
          ("X-Content-Type-Options", ["nosniff"])]
        code := some 500
        body := "connection refused\n" } :=
  ⟨(C10_upstream_failure_is_500 _ _ (helloRequest false) ⟨"user", "hello"⟩
      ⟨by decide, rfl, rfl, rfl, rfl, rfl⟩).2.2.2 ⟨503, .ok "upstream body"⟩ "upstream body"
      ⟨"hi there", "abc123"⟩ rfl rfl rfl,
    (C10_upstream_failure_is_500 _ _ (helloRequest false) ⟨"user", "hello"⟩
      ⟨by decide, rfl, rfl, rfl, rfl, rfl⟩).1 "connection refused" rfl⟩

end InstantSeek
